import Mathlib

/-!
# Verification of the mnist-demo drawing-to-tensor pipeline

Shallow embedding of the drawing / preprocessing / prediction glue in
`src/index.js` of the `yuzai/mnist-demo` repository, together with proofs of
the behavioural properties claimed for it.

Conventions:
  * JavaScript numbers used for pixel values and coordinates are modelled as
    `ℕ` (byte channel values) and `ℚ` (normalized values, coordinates, times).
  * Reading an out-of-bounds array index, which yields `undefined` in
    JavaScript, is modelled with `Option`/`getD`; operations that would throw
    a `TypeError` when fed `undefined` are modelled in `Except`.
  * Functions from `src/math.js` and the lodash debounce utility are not part
    of the provided source; they are modelled from the spec and marked so.
-/

set_option autoImplicit false

namespace MnistDemo

/-- One RGBA pixel sample, each channel a byte value `0–255` (modelled as `ℕ`;
the byte bound is carried as a hypothesis where it matters). -/
structure RGBA where
  r : ℕ
  g : ℕ
  b : ℕ
  a : ℕ
deriving DecidableEq, Repr

instance : Inhabited RGBA := ⟨⟨0, 0, 0, 0⟩⟩

/-- The flat `ImageData.data` byte sequence of a pixel list: row-major pixel
order, four consecutive bytes `r, g, b, a` per pixel. -/
def flattenRGBA : List RGBA → List ℕ
  | [] => []
  | p :: rest => p.r :: p.g :: p.b :: p.a :: flattenRGBA rest

/-- The Tensor Encoder loop of `deactivateDrawAndPredict`
(src/index.js lines 357–360):

    for (let i = 0, len = data.length; i < len; i += 4) {
      input[i / 4] = data[i + 3] / 255
    }

The loop strides through the flat byte array picking every fourth byte (the
alpha channel) and divides by 255.  It runs `⌈len / 4⌉` times; for an
`ImageData` buffer `len` is a multiple of 4, so every read `data[i + 3]` is in
bounds (the `getD` default is never consulted there). -/
def encodeTensor (data : List ℕ) : List ℚ :=
  (List.range ((data.length + 3) / 4)).map (fun j => ((data.getD (4 * j + 3) 0 : ℕ) : ℚ) / 255)

/-- A 2D point in drawing-surface pixel space.  The source passes points
around as `[x, y]` coordinate pairs produced by `getCoordinates`
(src/math.js); coordinates are modelled as rationals. -/
structure Point where
  x : ℚ
  y : ℚ
deriving DecidableEq, Repr

instance : Inhabited Point := ⟨⟨0, 0⟩⟩

/-- Modelled from the spec: `getMidpoint` lives in `src/math.js`, which is not
part of the provided source.  Spec §4.2 describes it as "the midpoint between
the current point and the next point". -/
def getMidpoint (p1 p2 : Point) : Point :=
  ⟨(p1.x + p2.x) / 2, (p1.y + p2.y) / 2⟩

/-- A canvas 2D path command issued by the stroke renderer. -/
inductive PathCmd where
  | moveTo (p : Point)
  | quadraticCurveTo (c : Point) (e : Point)
  | lineTo (p : Point)
deriving DecidableEq, Repr

/-- The render loop of `draw` (src/index.js lines 391–395):

    for (let i = 1, len = points.length; i < len; i++) {
      ctx.quadraticCurveTo(...p1, ...mathUtils.getMidpoint(p1, p2))
      p1 = points[i]
      p2 = points[i + 1]
    }

The first argument counts the remaining iterations (the JavaScript loop from
`i = 1` to `len - 1` runs exactly `len - 1` times); `p1`, `p2` are the loop
variables, `none` standing for `undefined`.  Spreading `undefined` into
`quadraticCurveTo`, or passing it to `getMidpoint`, would throw, which is
modelled by `Except.error`.  The final value of `p1` is returned for the
`ctx.lineTo(...p1)` that follows the loop. -/
def renderLoop (points : List Point) :
    ℕ → ℕ → Option Point → Option Point → List PathCmd →
    Except Unit (List PathCmd × Option Point)
  | 0, _, p1, _, acc => Except.ok (acc, p1)
  | n + 1, i, p1, p2, acc =>
    match p1, p2 with
    | some q1, some q2 =>
      renderLoop points n (i + 1) points[i]? points[i + 1]?
        (acc ++ [PathCmd.quadraticCurveTo q1 (getMidpoint q1 q2)])
    | _, _ => Except.error ()

/-- Rendering of one stroke by `draw` (src/index.js lines 384–397):

    let p1 = points[0]
    let p2 = points[1]
    ctx.beginPath()
    ctx.moveTo(...p1)
    ... loop ...
    ctx.lineTo(...p1)
    ctx.stroke()

The result is the list of path commands issued between `beginPath` and
`stroke` (the stroke style is fixed: `lineWidth 20`, round cap and join, so a
degenerate `moveTo p / lineTo p` path is painted as a single round dot at
`p`).  `Except.error` models a thrown `TypeError` from consuming
`undefined`. -/
def renderStroke (points : List Point) : Except Unit (List PathCmd) :=
  match points[0]? with
  | none => Except.error ()
  | some q0 =>
    match renderLoop points (points.length - 1) 1 points[0]? points[1]? [PathCmd.moveTo q0] with
    | Except.error e => Except.error e
    | Except.ok (cmds, pLast) =>
      match pLast with
      | none => Except.error ()
      | some qL => Except.ok (cmds ++ [PathCmd.lineTo qL])

/-- Follows the spec's words (claim C6), not the source: one quadratic segment
per consecutive pair of points, in insertion order; each segment's control
point is the current raw point and its endpoint is the midpoint between the
current point and the next point. -/
def specSegments : List Point → List PathCmd
  | p :: q :: rest => PathCmd.quadraticCurveTo p (getMidpoint p q) :: specSegments (q :: rest)
  | _ => []

/-- Appending a point to the last recorded stroke (src/index.js lines
377–378: `points = canvas_store.strokes[canvas_store.strokes.length - 1];
points.push(...)`).  On an empty strokes array the indexing yields
`undefined`; that case is kept separate in `draw` below. -/
def pushToLast : List (List Point) → Point → List (List Point)
  | [], _ => []
  | [s], p => [s ++ [p]]
  | s :: rest, p => s :: pushToLast rest p

/-- The drawing-session state `canvas_store` (src/index.js lines 327–330). -/
structure CanvasStore where
  strokes : List (List Point)
  drawing : Bool
deriving DecidableEq, Repr

/-- The pointer-down handler `activateDraw` (src/index.js lines 331–333): it
sets the drawing flag and pushes a new one-point stroke. -/
def activateDraw (s : CanvasStore) (p : Point) : CanvasStore :=
  { strokes := s.strokes ++ [[p]], drawing := true }

/-- The pointer-move handler `draw` (src/index.js lines 367–398).  It returns
the updated store together with `some` repainted canvas content (the path
commands of every stroke, oldest first — the handler clears the surface and
redraws everything), or `none` when the handler returned before touching the
canvas; `Except.error` models a thrown `TypeError`.  The guard on line 368
(`if(!canvas_store.drawing) return;`) precedes every other statement of the
handler, including the `clearRect`. -/
def draw (s : CanvasStore) (p : Point) :
    Except Unit (CanvasStore × Option (List (List PathCmd))) :=
  if s.drawing = false then Except.ok (s, none)
  else
    match s.strokes with
    | [] => Except.error ()
    | _ :: _ =>
      let strokes1 := pushToLast s.strokes p
      match strokes1.mapM renderStroke with
      | Except.error e => Except.error e
      | Except.ok rendered => Except.ok ({ s with strokes := strokes1 }, some rendered)

/-- A rendered pixel surface: `data` is the flat row-major pixel list of an
`ImageData` with the given dimensions (pixel `(x, y)` at index
`y * width + x`). -/
structure Raster where
  width : ℕ
  height : ℕ
  data : List RGBA
deriving DecidableEq, Repr

/-- A raster is blank when every pixel is fully transparent — no ink pixel in
the sense of the spec's glossary. -/
def Raster.blank (r : Raster) : Bool :=
  r.data.all (fun p => p.a == 0)

/-- Coordinates `(x, y)` of the ink pixels of a raster: the pixels whose alpha
exceeds the zero background threshold. -/
def inkCoords (r : Raster) : List (ℕ × ℕ) :=
  (((List.range r.height).map (fun y =>
    (List.range r.width).map (fun x => (x, y)))).flatten).filter
    (fun c => 0 < (r.data.getD (c.2 * r.width + c.1) default).a)

/-- Modelled from the spec: `centerCrop` lives in `src/math.js`, which is not
part of the provided source.  Spec §4.3: scan for the min/max x and y among
pixels whose alpha exceeds the zero background threshold and extract that
bounding box (margin omitted — the spec makes the padding optional); on a
blank canvas it must not throw, and of the two behaviours the spec allows the
full canvas is returned.  No claim depends on the pixel content this function
produces, only on its totality. -/
def centerCrop (r : Raster) : Raster :=
  match inkCoords r with
  | [] => r
  | c :: cs =>
    let minX := (cs.map Prod.fst).foldr min c.1
    let maxX := (cs.map Prod.fst).foldr max c.1
    let minY := (cs.map Prod.snd).foldr min c.2
    let maxY := (cs.map Prod.snd).foldr max c.2
    { width := maxX - minX + 1
      height := maxY - minY + 1
      data := ((List.range (maxY - minY + 1)).map (fun dy =>
        (List.range (maxX - minX + 1)).map (fun dx =>
          r.data.getD ((minY + dy) * r.width + (minX + dx)) default))).flatten }

/-- Outcome of one run of the pointer-up handler, as far as inference is
concerned. -/
inductive PredictOutcome where
  | notRun
  | predictCalled (input : List ℚ)
  | typeErrorNoModel
deriving DecidableEq, Repr

/-- The debounced pointer-up handler `deactivateDrawAndPredict`
(src/index.js lines 334–366).  Its only early return is the guard
`if (!canvas_store.drawing) return`; otherwise it clears the drawing flag,
center-crops the canvas raster, rescales it (the browser's `drawImage`
resampling is abstracted as the `resample` parameter), encodes the scaled
raster's alpha channel, and calls `model.predict` on the result —
unconditionally: there is no blank-canvas check and no model-availability
check.  `model` is the module-level binding that is `undefined` until the
train or load callback assigns it (`modelLoaded = false` models that state, in
which evaluating `model.predict` throws a `TypeError`). -/
def deactivateDrawAndPredict (resample : Raster → Raster) (modelLoaded : Bool)
    (s : CanvasStore) (raster : Raster) : CanvasStore × PredictOutcome :=
  if s.drawing = false then (s, PredictOutcome.notRun)
  else
    let s1 : CanvasStore := { s with drawing := false }
    let input := encodeTensor (flattenRGBA (resample (centerCrop raster)).data)
    if modelLoaded then (s1, PredictOutcome.predictCalled input)
    else (s1, PredictOutcome.typeErrorNoModel)

/-- Outcome of the predict-button callback. -/
inductive ButtonOutcome where
  | errorStateSurfaced
  | predictInvoked
  | typeErrorThrown
deriving DecidableEq, Repr

/-- The predict-button callback (src/index.js lines 322–324): it calls
`showPredictions(model)` with no guard; `showPredictions` (lines 219–246)
evaluates `model.predict(examples.xs)`, which throws a `TypeError` when
`model` is still `undefined`.  No error state is surfaced on that path. -/
def predictButtonCallback (modelLoaded : Bool) : ButtonOutcome :=
  if modelLoaded then ButtonOutcome.predictInvoked else ButtonOutcome.typeErrorThrown

/-- A model-store effect performed by the train/load callbacks. -/
inductive ModelEffect where
  | loadedFromCache (key : String)
  | createdAndTrained
  | saved (key : String)
deriving DecidableEq, Repr

/-- The save-key choice of the train-button callback
(src/index.js lines 280–286): the ConvNet architecture is saved under
`indexeddb://my-model-1` and the dense architecture under
`indexeddb://my-model-2`. -/
def trainSaveKey (modelType : String) : String :=
  if modelType = "ConvNet" then "indexeddb://my-model-1" else "indexeddb://my-model-2"

/-- The load-button callback (src/index.js lines 291–320), as its sequence of
model-store effects.  `loadOk` says whether `tf.loadModel` succeeds for the
requested key.  The `try`/`catch` makes a load failure non-fatal: the catch
block creates a fresh model, trains it, and saves it — with the key
`indexeddb://my-model-1` written out literally (line 316), not chosen by the
selected architecture. -/
def loadButtonCallback (modelType : String) (loadOk : Bool) : List ModelEffect :=
  let key := if modelType = "ConvNet" then "indexeddb://my-model-1" else "indexeddb://my-model-2"
  if loadOk then [ModelEffect.loadedFromCache key]
  else [ModelEffect.createdAndTrained, ModelEffect.saved "indexeddb://my-model-1"]

/-- Modelled from the spec: `deactivateDrawAndPredict` is wrapped in a 200 ms
debounce from an external utility library (src/index.js lines 334 and 367),
whose source is not part of the repository.  Spec §5 and glossary: every
qualifying event restarts the timer, superseding any pending scheduled
invocation, and the wrapped function runs once the wait has elapsed since the
last event, with that event's data.  Given the time-ordered list of pointer-up
events (each paired with the canvas raster as of that event), this returns the
invocations of the wrapped handler that actually fire, as
(fire time, raster) pairs: an event's scheduled invocation survives exactly
when no further event arrives within the wait. -/
def debounceInvocations {α : Type} (wait : ℚ) : List (ℚ × α) → List (ℚ × α)
  | [] => []
  | [(t, a)] => [(t + wait, a)]
  | (t, a) :: (t', a') :: rest =>
    (if t' - t < wait then [] else [(t + wait, a)]) ++
      debounceInvocations wait ((t', a') :: rest)

theorem flattenRGBA_length (pixels : List RGBA) :
    (flattenRGBA pixels).length = 4 * pixels.length := by
  induction pixels with
  | nil => rfl
  | cons p rest ih => simp [flattenRGBA, ih]; ring

theorem flattenRGBA_alpha (pixels : List RGBA) (j : ℕ) (hj : j < pixels.length) :
    (flattenRGBA pixels).getD (4 * j + 3) 0 = (pixels.getD j default).a := by
  induction pixels generalizing j with
  | nil => exact absurd hj (Nat.not_lt_zero j)
  | cons p rest ih =>
    cases j with
    | zero => rfl
    | succ j =>
      have h4 : 4 * (j + 1) + 3 = (4 * j + 3) + 1 + 1 + 1 + 1 := by ring
      rw [h4]
      simpa [flattenRGBA, List.getD] using ih j (Nat.lt_of_succ_lt_succ hj)

theorem encodeTensor_length (data : List ℕ) :
    (encodeTensor data).length = (data.length + 3) / 4 := by
  simp [encodeTensor]

theorem encodeTensor_getD (data : List ℕ) (j : ℕ) (hj : j < (data.length + 3) / 4) :
    (encodeTensor data).getD j 0 = ((data.getD (4 * j + 3) 0 : ℕ) : ℚ) / 255 := by
  unfold encodeTensor
  rw [List.getD_eq_getElem?_getD, List.getElem?_map, List.getElem?_range hj]
  rfl

theorem encodeTensor_mem (data : List ℕ) (q : ℚ) (hq : q ∈ encodeTensor data) :
    ∃ j, j < (data.length + 3) / 4 ∧ q = ((data.getD (4 * j + 3) 0 : ℕ) : ℚ) / 255 := by
  unfold encodeTensor at hq
  rcases List.mem_map.1 hq with ⟨j, hjr, hjq⟩
  exact ⟨j, List.mem_range.1 hjr, hjq.symm⟩

/-- C1 — The Tensor Encoder, applied to any 28×28 RGBA raster buffer, produces
a flat vector of length exactly 784 in row-major pixel order whose `i`-th
element equals the `i`-th pixel's alpha channel value divided by 255, so every
element lies in `[0, 1]`; an all-transparent input yields the all-zero vector
and an all-opaque input yields the all-one vector. -/
theorem C1_tensor_encoder (pixels : List RGBA)
    (hlen : pixels.length = 784)
    (hbyte : ∀ p ∈ pixels, p.a ≤ 255) :
    (encodeTensor (flattenRGBA pixels)).length = 784 ∧
    (∀ j, j < 784 →
      (encodeTensor (flattenRGBA pixels)).getD j 0 = ((pixels.getD j default).a : ℚ) / 255) ∧
    (∀ q ∈ encodeTensor (flattenRGBA pixels), 0 ≤ q ∧ q ≤ 1) ∧
    ((∀ p ∈ pixels, p.a = 0) →
      encodeTensor (flattenRGBA pixels) = List.replicate 784 0) ∧
    ((∀ p ∈ pixels, p.a = 255) →
      encodeTensor (flattenRGBA pixels) = List.replicate 784 1) := by
  have hflat : (flattenRGBA pixels).length = 3136 := by
    rw [flattenRGBA_length, hlen]
  have hquot : ((flattenRGBA pixels).length + 3) / 4 = 784 := by
    rw [hflat]
  have hlenq : (encodeTensor (flattenRGBA pixels)).length = 784 := by
    rw [encodeTensor_length, hquot]
  have helem : ∀ j, j < 784 →
      (encodeTensor (flattenRGBA pixels)).getD j 0 = ((pixels.getD j default).a : ℚ) / 255 := by
    intro j hj
    rw [encodeTensor_getD _ j (by rw [hquot]; exact hj),
      flattenRGBA_alpha _ j (by rw [hlen]; exact hj)]
  have hmemget : ∀ j, j < 784 → pixels.getD j default ∈ pixels := by
    intro j hj
    have hj' : j < pixels.length := by rw [hlen]; exact hj
    rw [List.getD_eq_getElem _ _ hj']
    exact List.getElem_mem hj'
  refine ⟨hlenq, helem, ?_, ?_, ?_⟩
  · intro q hq
    rcases encodeTensor_mem _ q hq with ⟨j, hj, hjq⟩
    rw [hquot] at hj
    have halpha : (flattenRGBA pixels).getD (4 * j + 3) 0 = (pixels.getD j default).a :=
      flattenRGBA_alpha _ j (by rw [hlen]; exact hj)
    have hb : (pixels.getD j default).a ≤ 255 := hbyte _ (hmemget j hj)
    constructor
    · rw [hjq]; positivity
    · rw [hjq, halpha, div_le_one (by norm_num : (0:ℚ) < 255)]
      exact_mod_cast hb
  · intro hzero
    refine List.eq_replicate_of_mem ?_ |>.trans (by rw [hlenq])
    intro q hq
    rcases encodeTensor_mem _ q hq with ⟨j, hj, hjq⟩
    rw [hquot] at hj
    rw [hjq, flattenRGBA_alpha _ j (by rw [hlen]; exact hj),
      hzero _ (hmemget j hj)]
    norm_num
  · intro hone
    refine List.eq_replicate_of_mem ?_ |>.trans (by rw [hlenq])
    intro q hq
    rcases encodeTensor_mem _ q hq with ⟨j, hj, hjq⟩
    rw [hquot] at hj
    rw [hjq, flattenRGBA_alpha _ j (by rw [hlen]; exact hj),
      hone _ (hmemget j hj)]
    norm_num

/-- Witness for C1 at the all-opaque 28×28 input. -/
theorem C1_tensor_encoder_witness :
    (List.replicate 784 (⟨0, 0, 0, 255⟩ : RGBA)).length = 784 ∧
    encodeTensor (flattenRGBA (List.replicate 784 ⟨0, 0, 0, 255⟩)) = List.replicate 784 1 :=
  ⟨by rw [List.length_replicate],
    (C1_tensor_encoder _ (by rw [List.length_replicate])
      (fun p hp => by rw [List.eq_of_mem_replicate hp])).2.2.2.2
      (fun p hp => by rw [List.eq_of_mem_replicate hp])⟩

/-- C10 — The Tensor Encoder's output is independent of the RGB channels: two
28×28 rasters that agree on every pixel's alpha channel encode to identical
input vectors. -/
theorem C10_rgb_independent (pix1 pix2 : List RGBA)
    (hlen1 : pix1.length = 784) (hlen2 : pix2.length = 784)
    (halpha : ∀ j, (pix1.getD j default).a = (pix2.getD j default).a) :
    encodeTensor (flattenRGBA pix1) = encodeTensor (flattenRGBA pix2) := by
  unfold encodeTensor
  rw [flattenRGBA_length, flattenRGBA_length, hlen1, hlen2]
  refine List.map_congr_left ?_
  intro j hj
  have hj784 : j < 784 := by
    have h := List.mem_range.1 hj
    omega
  rw [flattenRGBA_alpha pix1 j (by rw [hlen1]; exact hj784),
    flattenRGBA_alpha pix2 j (by rw [hlen2]; exact hj784), halpha j]

/-- Witness for C10: an all-transparent black raster and an all-transparent
white raster encode identically. -/
theorem C10_rgb_independent_witness :
    encodeTensor (flattenRGBA (List.replicate 784 ⟨0, 0, 0, 0⟩)) =
      encodeTensor (flattenRGBA (List.replicate 784 ⟨255, 255, 255, 0⟩)) :=
  C10_rgb_independent _ _ (by rw [List.length_replicate]) (by rw [List.length_replicate])
    (fun j => by
      rw [List.getD_eq_getElem?_getD, List.getD_eq_getElem?_getD,
        List.getElem?_replicate, List.getElem?_replicate]
      by_cases h : j < 784
      · rw [if_pos h, if_pos h]; rfl
      · rw [if_neg h, if_neg h])

theorem specSegments_short : ∀ (l : List Point), l.length ≤ 1 → specSegments l = []
  | [], _ => rfl
  | [_], _ => rfl
  | _ :: _ :: _, h => absurd h (by simp only [List.length_cons]; omega)

theorem last_getElem? (l : List Point) (hne : l ≠ []) :
    l[l.length - 1]? = some (l.getLastD default) := by
  rw [← List.getLast?_eq_getElem?, List.getLast?_eq_getLast l hne,
    List.getLastD_eq_getLast?, List.getLast?_eq_getLast l hne]
  rfl

theorem renderLoop_spec (points : List Point) :
    ∀ (n i : ℕ) (acc : List PathCmd), 1 ≤ i → i ≤ points.length →
      n = points.length - i →
      renderLoop points n i points[i - 1]? points[i]? acc =
        Except.ok (acc ++ specSegments (points.drop (i - 1)),
          points[points.length - 1]?) := by
  intro n
  induction n with
  | zero =>
    intro i acc h1 h2 hn
    have hi : i = points.length := by omega
    subst hi
    have hlen : (points.drop (points.length - 1)).length ≤ 1 := by
      rw [List.length_drop]
      omega
    rw [specSegments_short _ hlen, List.append_nil]
    rfl
  | succ n ih =>
    intro i acc h1 h2 hn
    have hilt : i < points.length := by omega
    have hi1 : i - 1 < points.length := by omega
    rw [List.getElem?_eq_getElem hi1, List.getElem?_eq_getElem hilt]
    show renderLoop points n (i + 1) points[i]? points[i + 1]?
        (acc ++ [PathCmd.quadraticCurveTo points[i - 1]
          (getMidpoint points[i - 1] points[i])]) = _
    have hrec := ih (i + 1)
      (acc ++ [PathCmd.quadraticCurveTo points[i - 1] (getMidpoint points[i - 1] points[i])])
      (by omega) (by omega) (by omega)
    have hidx : i + 1 - 1 = i := by omega
    rw [hidx] at hrec
    rw [hrec]
    have hdrop1 : points.drop (i - 1) = points[i - 1] :: points.drop i := by
      have h := List.drop_eq_getElem_cons hi1
      have e : i - 1 + 1 = i := by omega
      rw [e] at h
      exact h
    have hdrop2 : points.drop i = points[i] :: points.drop (i + 1) :=
      List.drop_eq_getElem_cons hilt
    rw [hdrop1, hdrop2]
    simp only [specSegments, List.append_assoc, List.cons_append, List.nil_append]

/-- C5 — A stroke of exactly one point renders totally (no error, although the
lookup `points[1]` is `undefined`: the loop body that would consume it never
runs) and still marks the terminal point: the emitted path is `moveTo p`
followed by `lineTo p`, which the fixed round-cap, width-20 stroke style
paints as a single dot at `p`. -/
theorem C5_single_point_stroke (p : Point) :
    renderStroke [p] = Except.ok [PathCmd.moveTo p, PathCmd.lineTo p] := rfl

/-- C6 — For every stroke with at least two points (any `p :: q :: rest`), the
renderer emits, in insertion order, one quadratic segment per consecutive pair
of points — control point the current raw point, endpoint the midpoint between
the current point and the next (`specSegments`, written from the spec's
words) — followed by a final line to the last point. -/
theorem C6_multi_point_stroke (p q : Point) (rest : List Point) :
    renderStroke (p :: q :: rest) =
      Except.ok (PathCmd.moveTo p ::
        (specSegments (p :: q :: rest) ++
          [PathCmd.lineTo ((p :: q :: rest).getLastD default)])) := by
  have hloop := renderLoop_spec (p :: q :: rest) ((p :: q :: rest).length - 1) 1
    [PathCmd.moveTo p] (le_refl 1) (by simp only [List.length_cons]; omega) rfl
  simp only [Nat.sub_self, List.getElem?_cons_zero, List.getElem?_cons_succ,
    List.drop_zero] at hloop
  rw [last_getElem? _ (List.cons_ne_nil p (q :: rest))] at hloop
  simp only [renderStroke, List.getElem?_cons_zero, List.getElem?_cons_succ, hloop]
  rfl

/-- C4 — A pointer-move arriving while `isDrawing` is false is a complete
no-op: the handler's first statement is the guard
`if(!canvas_store.drawing) return;`, so it throws nothing, leaves the stroke
sequence and the flag untouched, and never reaches the `clearRect` — the
canvas is untouched (`none`). -/
theorem C4_move_without_down (s : CanvasStore) (p : Point) (h : s.drawing = false) :
    draw s p = Except.ok (s, none) := by
  rw [draw, if_pos h]

/-- Witness for C4 at an idle empty session. -/
theorem C4_move_without_down_witness :
    (⟨[], false⟩ : CanvasStore).drawing = false ∧
    draw ⟨[], false⟩ ⟨5, 7⟩ = Except.ok (⟨[], false⟩, none) :=
  ⟨rfl, C4_move_without_down ⟨[], false⟩ ⟨5, 7⟩ rfl⟩

/-- C7 — The pointer-up handler `deactivateDrawAndPredict` sets `isDrawing`
to false and changes nothing else of the drawing session: whatever the model
state, raster and resampler, the strokes sequence is identical before and
after, so strokes persist across pen-down/pen-up cycles until an explicit
clear. -/
theorem C7_end_stroke_preserves_strokes (resample : Raster → Raster) (modelLoaded : Bool)
    (s : CanvasStore) (raster : Raster) :
    ((deactivateDrawAndPredict resample modelLoaded s raster).1).strokes = s.strokes ∧
    ((deactivateDrawAndPredict resample modelLoaded s raster).1).drawing = false := by
  unfold deactivateDrawAndPredict
  by_cases h : s.drawing = false
  · rw [if_pos h]
    exact ⟨rfl, h⟩
  · rw [if_neg h]
    by_cases hm : modelLoaded <;> simp [hm]

/-- C2 fails on the code: `deactivateDrawAndPredict` contains no blank-canvas
check (the only early return is the `drawing` guard), so a pointer-up whose
canvas is still fully transparent — e.g. a tap with no pointer-move, which
records a stroke and sets the flag but never draws — still runs the whole
crop → resample → encode pipeline and calls `model.predict`.  This theorem
evaluates the handler on an arbitrary blank raster with the drawing flag set:
inference is invoked, where the claim says the pipeline stops. -/
theorem C2_blank_canvas_still_predicts (resample : Raster → Raster) (s : CanvasStore)
    (r : Raster) (_hblank : r.blank = true) (hdraw : s.drawing = true) :
    (deactivateDrawAndPredict resample true s r).2 =
      PredictOutcome.predictCalled
        (encodeTensor (flattenRGBA (resample (centerCrop r)).data)) := by
  simp [deactivateDrawAndPredict, hdraw]

/-- Witness for C2: a 2×2 fully transparent canvas after a tap (one recorded
one-point stroke, flag set), identity resampler: predict is called on the
all-zero vector. -/
theorem C2_blank_canvas_still_predicts_witness :
    (Raster.mk 2 2 (List.replicate 4 ⟨0, 0, 0, 0⟩)).blank = true ∧
    (⟨[[⟨1, 1⟩]], true⟩ : CanvasStore).drawing = true ∧
    (deactivateDrawAndPredict id true ⟨[[⟨1, 1⟩]], true⟩
        (Raster.mk 2 2 (List.replicate 4 ⟨0, 0, 0, 0⟩))).2 =
      PredictOutcome.predictCalled
        (encodeTensor (flattenRGBA
          (id (centerCrop (Raster.mk 2 2 (List.replicate 4 ⟨0, 0, 0, 0⟩)))).data)) :=
  ⟨by decide, rfl, C2_blank_canvas_still_predicts id _ _ (by decide) rfl⟩

/-- C3 fails on the code: neither predict path guards on model availability.
With no model handle (the module-level `model` still `undefined`), the predict
button's callback evaluates `model.predict` inside `showPredictions` and
throws a `TypeError`, and the debounced pointer-up handler does the same at
`await model.predict(input)`; no error state is surfaced on either path. -/
theorem C3_absent_model_throws (resample : Raster → Raster) (strokes : List (List Point))
    (r : Raster) :
    predictButtonCallback false = ButtonOutcome.typeErrorThrown ∧
    (deactivateDrawAndPredict resample false ⟨strokes, true⟩ r).2 =
      PredictOutcome.typeErrorNoModel := by
  constructor
  · rfl
  · simp [deactivateDrawAndPredict]

/-- C8 fails on the code in its save-key part: the load failure is caught and
the fallback creates and retrains a model (never fatal), but the catch block
saves under the literal key `indexeddb://my-model-1` (src/index.js line 316)
whatever the selected architecture, while the train button's own key choice
maps the dense architecture to `indexeddb://my-model-2`.  Evaluated at the
failing input: DenseNet selected, cache miss. -/
theorem C8_fallback_save_key :
    loadButtonCallback "DenseNet" false =
      [ModelEffect.createdAndTrained, ModelEffect.saved "indexeddb://my-model-1"] ∧
    trainSaveKey "DenseNet" = "indexeddb://my-model-2" ∧
    ("indexeddb://my-model-1" : String) ≠ "indexeddb://my-model-2" := by
  refine ⟨?_, ?_, ?_⟩ <;> decide

theorem debounce_burst {α : Type} (wait : ℚ) :
    ∀ (events : List (ℚ × α)) (hne : events ≠ []),
      List.Chain' (fun a b => b.1 - a.1 < wait) events →
      debounceInvocations wait events =
        [((events.getLast hne).1 + wait, (events.getLast hne).2)]
  | [], hne, _ => absurd rfl hne
  | [(_, _)], _, _ => rfl
  | (t, a) :: (t', a') :: rest, _, hchain => by
    have hrel : t' - t < wait := (List.chain'_cons.1 hchain).1
    have htail := debounce_burst wait ((t', a') :: rest) (List.cons_ne_nil _ _)
      (List.chain'_cons.1 hchain).2
    show (if t' - t < wait then [] else [(t + wait, a)]) ++
        debounceInvocations wait ((t', a') :: rest) = _
    rw [if_pos hrel, List.nil_append, htail,
      List.getLast_cons (List.cons_ne_nil (t', a') rest)]

/-- C9 — Debounce: for every burst of N ≥ 1 pointer-up events whose
consecutive gaps are below 200 ms, exactly one invocation of the debounced
handler fires — 200 ms after the last event, with the last event's raster —
and that single invocation makes exactly one inference call, on the encoding
of that raster (drawing flag set, model available).  Every earlier event's
scheduled invocation is superseded by the next event of the burst. -/
theorem C9_debounce_single_inference (resample : Raster → Raster)
    (strokes : List (List Point)) (events : List (ℚ × Raster)) (hne : events ≠ [])
    (hburst : List.Chain' (fun a b => b.1 - a.1 < 200) events) :
    debounceInvocations 200 events =
      [((events.getLast hne).1 + 200, (events.getLast hne).2)] ∧
    (deactivateDrawAndPredict resample true ⟨strokes, true⟩ (events.getLast hne).2).2 =
      PredictOutcome.predictCalled
        (encodeTensor (flattenRGBA
          (resample (centerCrop (events.getLast hne).2)).data)) := by
  refine ⟨debounce_burst 200 events hne hburst, ?_⟩
  simp [deactivateDrawAndPredict]

/-- Witness for C9: two pointer-ups 100 ms apart (first over a blank canvas,
second after ink appeared): one invocation fires, at 300 ms, carrying the
second event's raster. -/
theorem C9_debounce_single_inference_witness :
    ([((0 : ℚ), Raster.mk 1 1 [⟨0, 0, 0, 0⟩]),
        ((100 : ℚ), Raster.mk 1 1 [⟨57, 62, 70, 255⟩])] ≠ ([] : List (ℚ × Raster))) ∧
    debounceInvocations 200
        [((0 : ℚ), Raster.mk 1 1 [⟨0, 0, 0, 0⟩]),
          ((100 : ℚ), Raster.mk 1 1 [⟨57, 62, 70, 255⟩])] =
      [((300 : ℚ), Raster.mk 1 1 [⟨57, 62, 70, 255⟩])] := by
  constructor
  · exact List.cons_ne_nil _ _
  · rw [(C9_debounce_single_inference id []
      [((0 : ℚ), Raster.mk 1 1 [⟨0, 0, 0, 0⟩]),
        ((100 : ℚ), Raster.mk 1 1 [⟨57, 62, 70, 255⟩])]
      (List.cons_ne_nil _ _)
      (List.chain'_cons.2 ⟨by norm_num, List.chain'_singleton _⟩)).1]
    norm_num [List.getLast]

end MnistDemo
